import Mathlib

/-!
Shallow embedding of `csvforwkt/crs.py`: the CRS construction and WKT
rendering logic for celestial bodies (direction resolver, code assigner,
template selection, conversion rendering, projected CRS builder), together
with theorems settling the specification claims.
-/

set_option autoImplicit false
set_option maxRecDepth 1000000

namespace Csvforwkt

/-- Type of CRS (`CrsType` enum in the source): Ocentric or Ographic. -/
inductive CrsType where
  | OCENTRIC
  | OGRAPHIC
deriving DecidableEq

/-- The `.value` of the `CrsType` enum member. -/
def CrsType.value : CrsType → String
  | .OCENTRIC => "Ocentric"
  | .OGRAPHIC => "Ographic"

/-- Modelled from the spec: the `ReferenceShape` enumeration lives in the
external body module (`csvforwkt/body.py`, not under `src/`); the spec fixes
its shape classes to Sphere, Ellipse and Triaxial. The extra `UNKNOWN`
constructor models an unrecognized shape label reaching the dynamically
typed code. -/
inductive ReferenceShape where
  | SPHERE
  | ELLIPSE
  | TRIAXIAL
  | UNKNOWN (label : String)
deriving DecidableEq

/-- Modelled from the spec: the `.value` string of a `ReferenceShape` member. -/
def ReferenceShape.value : ReferenceShape → String
  | .SPHERE => "Sphere"
  | .ELLIPSE => "Ellipse"
  | .TRIAXIAL => "Triaxial"
  | .UNKNOWN label => label

/-- Modelled from the spec: the external `Body` description (black-box
provider): a display name, a shape class and an optional free-text warning.
The numeric axes are irrelevant to the claims and omitted. -/
structure IBody where
  name : String
  shape : ReferenceShape
  warning : Option String
deriving DecidableEq

/-- Modelled from the spec: the external `Datum` description (black-box
provider): owns a body, has a name and emits its own WKT fragment. -/
structure Datum where
  name : String
  body : IBody
  wktFragment : String
deriving DecidableEq

/-- Modelled from the spec: `Datum.wkt()` returns the datum's own WKT
fragment, treated as opaque text here. -/
def Datum.wkt (d : Datum) : String := d.wktFragment

/-- Modelled from the spec: the `IAU_REPORT` constants of the external body
module: a version tag and a fixed IAU-source citation. Their exact text is
opaque to every claim. -/
def IAU_REPORT.VERSION : String := "2015"

/-- Modelled from the spec: fixed IAU-source citation appended to remarks. -/
def IAU_REPORT.SOURCE_IAU : String :=
  "Source of IAU Coordinate systems: doi:10.1007/s10569-017-9805-5"

/-- The `BodyCrsCode` enum: code related to the shape and the CRS. -/
inductive BodyCrsCode where
  | SPHERE_OCENTRIC
  | ELLIPSE_OGRAPHIC
  | ELLIPSE_OCENTRIC
  | TRIAXIAL_OGRAPHIC
  | TRIAXIAL_OCENTRIC
deriving DecidableEq

/-- The `shape` field of each `BodyCrsCode` member. -/
def BodyCrsCode.shape : BodyCrsCode → String
  | .SPHERE_OCENTRIC => "Sphere"
  | .ELLIPSE_OGRAPHIC => "Ellipse"
  | .ELLIPSE_OCENTRIC => "Ellipse"
  | .TRIAXIAL_OGRAPHIC => "Triaxial"
  | .TRIAXIAL_OCENTRIC => "Triaxial"

/-- The `reference` field of each `BodyCrsCode` member. -/
def BodyCrsCode.reference : BodyCrsCode → String
  | .SPHERE_OCENTRIC => CrsType.OCENTRIC.value
  | .ELLIPSE_OGRAPHIC => CrsType.OGRAPHIC.value
  | .ELLIPSE_OCENTRIC => CrsType.OCENTRIC.value
  | .TRIAXIAL_OGRAPHIC => CrsType.OGRAPHIC.value
  | .TRIAXIAL_OCENTRIC => CrsType.OCENTRIC.value

/-- The `code` field of each `BodyCrsCode` member. -/
def BodyCrsCode.code : BodyCrsCode → Int
  | .SPHERE_OCENTRIC => 0
  | .ELLIPSE_OGRAPHIC => 1
  | .ELLIPSE_OCENTRIC => 2
  | .TRIAXIAL_OGRAPHIC => 3
  | .TRIAXIAL_OCENTRIC => 4

/-- `BodyCrsCode.get_code`: compute the code of the body from the Naif code. -/
def BodyCrsCode.get_code (b : BodyCrsCode) (naif_code : Int) : Int :=
  naif_code * 100 + b.code

/-- Python `str.upper()` on the ASCII body names this code compares
against: uppercase every character. -/
def pyUpper (s : String) : String := String.mk (s.data.map Char.toUpper)

/-- `BodyCrs._create_direction`: the longitude direction resolver. Returns
`none` where the Python code returns `None`. -/
def createDirection (name rotation : String) (crs_type : CrsType)
    (number_body : Int) : Option String :=
  if number_body ≥ 90000 ∨ pyUpper name ∈ ["SUN", "EARTH", "MOON"] then
    some "east"
  else if crs_type = CrsType.OCENTRIC then
    some "east"
  else if rotation = "Direct" then
    some "west"
  else if rotation = "Retrograde" then
    some "east"
  else
    none

namespace BodyCrs

/-- `BodyCrs.TEMPLATE_OGRAPHIC` from the source. -/
def TEMPLATE_OGRAPHIC : String :=
  "GEOGCRS[\"$name ($version) / Ographic\",\n    $datum,\n\tCS[ellipsoidal, 2],\n\t    AXIS[\"geodetic latitude (Lat)\", north,\n\t        ORDER[1],\n\t        ANGLEUNIT[\"degree\", 0.0174532925199433]],\n\t    AXIS[\"geodetic longitude (Lon)\", $direction,\n\t        ORDER[2],\n\t        ANGLEUNIT[\"degree\", 0.0174532925199433]],\n\tID[\"IAU\", $number, $version],\n\tREMARK[\"$remark\"]]"

/-- `BodyCrs.TEMPLATE_OCENTRIC` from the source. -/
def TEMPLATE_OCENTRIC : String :=
  "GEODCRS[\"$name ($version) / Ocentric\",\n    $datum,\n\tCS[spherical, 2],\n\t    AXIS[\"planetocentric latitude (U)\", north,\n\t        ORDER[1],\n\t        ANGLEUNIT[\"degree\", 0.0174532925199433]],\n\t    AXIS[\"planetocentric longitude (V)\", east,\n\t        ORDER[2],\n\t        ANGLEUNIT[\"degree\", 0.0174532925199433]],\n\tID[\"IAU\", $number, $version],\n\tREMARK[\"$remark\"]]"

/-- `BodyCrs.TEMPLATE_SPHERE` from the source. -/
def TEMPLATE_SPHERE : String :=
  "GEOGCRS[\"$name ($version) - Sphere \",\n    $datum,\n\tCS[ellipsoidal, 2],\n\t    AXIS[\"geodetic latitude (Lat)\", north,\n\t        ORDER[1],\n\t        ANGLEUNIT[\"degree\", 0.0174532925199433]],\n\t    AXIS[\"geodetic longitude (Lon)\", east,\n\t        ORDER[2],\n\t        ANGLEUNIT[\"degree\", 0.0174532925199433]],\n\tID[\"IAU\", $number, $version],\n\tREMARK[\"$remark\"]]"

end BodyCrs

/-- `BodyCrs._get_template_and_number`: selects the WKT template and the
numeric code from the CRS type and the body shape; `none` models the
`ValueError` raised for an unknown shape/CRS combination. -/
def getTemplateAndNumber (crs_type : CrsType) (shape : ReferenceShape)
    (naif_code : Int) : Option (String × Int) :=
  match crs_type with
  | CrsType.OCENTRIC =>
    match shape with
    | ReferenceShape.SPHERE =>
      some (BodyCrs.TEMPLATE_SPHERE,
        BodyCrsCode.SPHERE_OCENTRIC.get_code naif_code)
    | ReferenceShape.ELLIPSE =>
      some (BodyCrs.TEMPLATE_OCENTRIC,
        BodyCrsCode.ELLIPSE_OCENTRIC.get_code naif_code)
    | ReferenceShape.TRIAXIAL =>
      some (BodyCrs.TEMPLATE_OCENTRIC,
        BodyCrsCode.TRIAXIAL_OCENTRIC.get_code naif_code)
    | ReferenceShape.UNKNOWN _ => none
  | CrsType.OGRAPHIC =>
    match shape with
    | ReferenceShape.ELLIPSE =>
      some (BodyCrs.TEMPLATE_OGRAPHIC,
        BodyCrsCode.ELLIPSE_OGRAPHIC.get_code naif_code)
    | ReferenceShape.TRIAXIAL =>
      some (BodyCrs.TEMPLATE_OGRAPHIC,
        BodyCrsCode.TRIAXIAL_OGRAPHIC.get_code naif_code)
    | _ => none

/-- The `BodyCrs` object: its private fields after `__init__` succeeded. -/
structure BodyCrs where
  datum : Datum
  crs_type : CrsType
  direction : Option String
  name : String
  number : Int
  template : String
deriving DecidableEq

/-- `BodyCrs.__init__`: builds the object, resolving direction, template
and number; `none` models the `ValueError` escaping the constructor. -/
def BodyCrs.init (datum : Datum) (number_body : Int) (direction : String)
    (crs_type : CrsType) : Option BodyCrs :=
  match getTemplateAndNumber crs_type datum.body.shape number_body with
  | none => none
  | some (template, number) =>
    some { datum := datum
           crs_type := crs_type
           direction := createDirection datum.name direction crs_type number_body
           name := datum.name
           number := number
           template := template }

/-- One character of a `string.Template` identifier (ASCII letters, digits,
underscore). -/
def isIdentChar (c : Char) : Bool := c.isAlphanum || c == '_'

/-- Lookup of an accumulated placeholder name in the substitution mapping. -/
def lookupTpl (m : List (String × String)) (acc : List Char) :
    Option (List Char) :=
  (List.lookup (String.mk acc) m).map String.data

/-- Worker for `Template.substitute`: walks the template characters; the
state is `some acc` while scanning a `$identifier`. Returns `none` where
Python raises (`KeyError` on a missing key, `ValueError` on an invalid
placeholder). -/
def substGo (m : List (String × String)) (st : Option (List Char)) :
    List Char → Option (List Char)
  | [] =>
    match st with
    | none => some []
    | some acc => lookupTpl m acc
  | c :: rest =>
    match st with
    | none =>
      if c == '$' then substGo m (some []) rest
      else (substGo m none rest).map (fun t => c :: t)
    | some acc =>
      if isIdentChar c then substGo m (some (acc ++ [c])) rest
      else
        match lookupTpl m acc with
        | none => none
        | some v =>
          if c == '$' then (substGo m (some []) rest).map (fun t => v ++ t)
          else (substGo m none rest).map (fun t => v ++ c :: t)

/-- `string.Template(t).substitute(m)`: replaces every `$identifier` in `t`
by its value in `m`; fails on a missing or invalid placeholder. -/
def substitute (t : String) (m : List (String × String)) : Option String :=
  (substGo m none t.data).map String.mk

/-- `BodyCrs._create_remark`: warning text (if any) concatenated with the
fixed IAU-source citation. -/
def BodyCrs.createRemark (c : BodyCrs) : String :=
  match c.datum.body.warning with
  | none => IAU_REPORT.SOURCE_IAU
  | some w => w ++ IAU_REPORT.SOURCE_IAU

/-- `BodyCrs.wkt`: asserts that the direction is resolved (else the Python
`assert` fires: modelled by `none`), then substitutes the template. -/
def BodyCrs.wkt (c : BodyCrs) : Option String :=
  match c.direction with
  | none => none
  | some dir =>
    substitute c.template
      [("name", c.name),
       ("version", IAU_REPORT.VERSION),
       ("datum", c.datum.wkt),
       ("number", toString c.number),
       ("direction", dir),
       ("remark", c.createRemark)]

/-- One cell of a projection catalog row: the Python lists mix integers,
strings and `None`. -/
inductive PCell where
  | str (v : String)
  | int (v : Int)
  | null
deriving DecidableEq

/-- Python `str()` applied to a cell (as `Template.substitute` does). -/
def PCell.render : PCell → String
  | .str v => v
  | .int v => toString v
  | .null => "None"

/-- Python `int()` applied to a cell: identity on integers, parse on
strings, failure (`TypeError`) on `None`. -/
def PCell.asInt : PCell → Option Int
  | .int v => some v
  | .str v => v.toInt?
  | .null => none

namespace Conversion

/-- `Conversion.TEMPLATE_PARAMETER` from the source. -/
def TEMPLATE_PARAMETER : String :=
  "PARAMETER[\"$parameter_name\", $parameter_value,\n            $unit,\n            ID[\"$authority\", $authority_code]]"

/-- `Conversion.TEMPLATE_CONVERSION` from the source. -/
def TEMPLATE_CONVERSION : String :=
  "CONVERSION[\"$conversion_name\",\n        METHOD[\"$method_name\",\n            ID[\"$authority\", $authority_code]],\n        $params],"

end Conversion

namespace ProjectionBody

/-- `ProjectionBody.PROJECTION_DATA`: the fixed projection catalog
(17 rows of 15 cells). -/
def PROJECTION_DATA : List (List PCell) :=
  [[.int 10, .str "Equirectangular, clon = 0", .str "Equidistant Cylindrical",
    .str "Latitude of 1st standard parallel", .int 0,
    .str "Longitude of natural origin", .int 0,
    .str "False easting", .int 0, .str "False northing", .int 0,
    .null, .null, .null, .null],
   [.int 15, .str "Equirectangular, clon = 180", .str "Equidistant Cylindrical",
    .str "Latitude of 1st standard parallel", .int 0,
    .str "Longitude of natural origin", .int 180,
    .str "False easting", .int 0, .str "False northing", .int 0,
    .null, .null, .null, .null],
   [.int 20, .str "Sinusoidal, clon = 0", .str "Sinusoidal",
    .str "Longitude of natural origin", .int 0,
    .str "False easting", .int 0, .str "False northing", .int 0,
    .null, .null, .null, .null, .null, .null],
   [.int 25, .str "Sinusoidal, clon = 180", .str "Sinusoidal",
    .str "Longitude of natural origin", .int 180,
    .str "False easting", .int 0, .str "False northing", .int 0,
    .null, .null, .null, .null, .null, .null],
   [.int 30, .str "North Polar", .str "Polar Stereographic (variant A)",
    .str "Latitude of natural origin", .int 90,
    .str "Longitude of natural origin", .int 0,
    .str "Scale factor at natural origin", .int 1,
    .str "False easting", .int 0, .str "False northing", .int 0,
    .null, .null],
   [.int 35, .str "South Polar", .str "Polar Stereographic (variant A)",
    .str "Latitude of natural origin", .int (-90),
    .str "Longitude of natural origin", .int 0,
    .str "Scale factor at natural origin", .int 1,
    .str "False easting", .int 0, .str "False northing", .int 0,
    .null, .null],
   [.int 40, .str "Mollweide, clon = 0", .str "Mollweide",
    .str "Longitude of natural origin", .int 0,
    .str "False easting", .int 0, .str "False northing", .int 0,
    .null, .null, .null, .null, .null, .null],
   [.int 45, .str "Mollweide, clon = 180", .str "Mollweide",
    .str "Longitude of natural origin", .int 180,
    .str "False easting", .int 0, .str "False northing", .int 0,
    .null, .null, .null, .null, .null, .null],
   [.int 50, .str "Robinson, clon = 0", .str "Robinson",
    .str "Longitude of natural origin", .int 0,
    .str "False easting", .int 0, .str "False northing", .int 0,
    .null, .null, .null, .null, .null, .null],
   [.int 55, .str "Robinson, clon = 180", .str "Robinson",
    .str "Longitude of natural origin", .int 180,
    .str "False easting", .int 0, .str "False northing", .int 0,
    .null, .null, .null, .null, .null, .null],
   [.int 60, .str "Tranverse Mercator", .str "Transverse Mercator",
    .str "Latitude of natural origin", .int 0,
    .str "Longitude of natural origin", .int 0,
    .str "Scale factor at natural origin", .int 1,
    .str "False easting", .int 0, .str "False northing", .int 0,
    .null, .null],
   [.int 65, .str "Orthographic, clon = 0", .str "Orthographic",
    .str "Latitude of natural origin", .int 0,
    .str "Longitude of natural origin", .int 0,
    .str "False easting", .int 0, .str "False northing", .int 0,
    .null, .null, .null, .null],
   [.int 70, .str "Orthographic, clon = 180", .str "Orthographic",
    .str "Latitude of natural origin", .int 0,
    .str "Longitude of natural origin", .int 180,
    .str "False easting", .int 0, .str "False northing", .int 0,
    .null, .null, .null, .null],
   [.int 75, .str "Lambert Conic Conformal",
    .str "Lambert Conic Conformal (2SP)",
    .str "Latitude of false origin", .int 40,
    .str "Longitude of false origin", .int 0,
    .str "Latitude of 1st standard parallel", .int 20,
    .str "Latitude of 2nd standard parallel", .int 60,
    .str "Easting at false origin", .int 0,
    .str "Northing at false origin", .int 0],
   [.int 80, .str "Lambert Azimuthal Equal Area",
    .str "Lambert Azimuthal Equal Area",
    .str "Latitude of natural origin", .int 40,
    .str "Longitude of natural origin", .int 0,
    .str "False easting", .int 0, .str "False northing", .int 0,
    .null, .null, .null, .null],
   [.int 85, .str "Albers Equal Area", .str "Albers Equal Area",
    .str "Latitude of false origin", .int 40,
    .str "Longitude of false origin", .int 0,
    .str "Latitude of 1st standard parallel", .int 20,
    .str "Latitude of 2nd standard parallel", .int 60,
    .str "Easting at false origin", .int 0,
    .str "Northing at false origin", .int 0],
   [.int 90, .str "Mercator", .str "Mercator (Spherical)",
    .str "Latitude of natural origin", .int 0,
    .str "Longitude of natural origin", .int 0,
    .str "False easting", .int 0, .str "False northing", .int 0,
    .null, .null, .null, .null]]

/-- `ProjectionBody.METHOD_AND_PARAM_MAPPING`: the fixed mapping from a
parameter or method name to authority, authority code and optional unit. -/
def MAPPING_TABLE : List (String × List PCell) :=
  [("Mercator (Spherical)", [.str "EPSG", .int 1026]),
   ("Lambert Azimuthal Equal Area (Spherical)", [.str "EPSG", .int 1027]),
   ("Equidistant Cylindrical", [.str "EPSG", .int 1028]),
   ("Equidistant Cylindrical (Spherical)", [.str "EPSG", .int 1029]),
   ("Scale factor at natural origin",
    [.str "EPSG", .int 8805, .str "SCALEUNIT[\"unity\",1,ID[\"EPSG\", 9201]]"]),
   ("False easting",
    [.str "EPSG", .int 8806, .str "LENGTHUNIT[\"metre\",1,ID[\"EPSG\", 9001]]"]),
   ("False northing",
    [.str "EPSG", .int 8807, .str "LENGTHUNIT[\"metre\",1,ID[\"EPSG\", 9001]]"]),
   ("Latitude of natural origin",
    [.str "EPSG", .int 8801,
     .str "ANGLEUNIT[\"degree\",0.0174532925199433,ID[\"EPSG\", 9122]]"]),
   ("Longitude of natural origin",
    [.str "EPSG", .int 8802,
     .str "ANGLEUNIT[\"degree\",0.0174532925199433,ID[\"EPSG\", 9122]]"]),
   ("Latitude of false origin",
    [.str "EPSG", .int 8821,
     .str "ANGLEUNIT[\"degree\",0.0174532925199433,ID[\"EPSG\", 9122]]"]),
   ("Longitude of false origin",
    [.str "EPSG", .int 8822,
     .str "ANGLEUNIT[\"degree\",0.0174532925199433,ID[\"EPSG\", 9122]]"]),
   ("Latitude of 1st standard parallel",
    [.str "EPSG", .int 8823,
     .str "ANGLEUNIT[\"degree\",0.0174532925199433,ID[\"EPSG\", 9122]]"]),
   ("Latitude of 2nd standard parallel",
    [.str "EPSG", .int 8824,
     .str "ANGLEUNIT[\"degree\",0.0174532925199433,ID[\"EPSG\", 9122]]"]),
   ("Easting at false origin",
    [.str "EPSG", .int 8826, .str "LENGTHUNIT[\"metre\",1,ID[\"EPSG\", 9001]]"]),
   ("Northing at false origin",
    [.str "EPSG", .int 8827, .str "LENGTHUNIT[\"metre\",1,ID[\"EPSG\", 9001]]"]),
   ("Sinusoidal", [.str "PROJ", .str "\"SINUSOIDAL\""]),
   ("Robinson", [.str "PROJ", .str "\"ROBINSON\""]),
   ("Mollweide", [.str "PROJ", .str "\"MOLLWEIDE\""]),
   ("Transverse Mercator", [.str "EPSG", .int 9807]),
   ("Lambert Conic Conformal (2SP)", [.str "EPSG", .int 9802]),
   ("Polar Stereographic (variant A)", [.str "EPSG", .int 9810]),
   ("Lambert Azimuthal Equal Area", [.str "EPSG", .int 9820]),
   ("Albers Equal Area", [.str "EPSG", .int 9822]),
   ("Orthographic", [.str "EPSG", .int 9840]),
   ("Popular Visualisation Pseudo Mercator", [.str "EPSG", .int 1024])]

/-- Dictionary access `METHOD_AND_PARAM_MAPPING[key]`: the dict is keyed by
strings, so any non-string key misses; `none` models the `KeyError`. -/
def mapping (key : PCell) : Option (List PCell) :=
  match key with
  | .str s => MAPPING_TABLE.lookup s
  | _ => none

end ProjectionBody

namespace Conversion

/-- The numpy `reshape(len/2, 2)` step: group the filtered parameter cells
into consecutive pairs; an odd count fails (as `reshape` would). -/
def toPairs : List PCell → Option (List (PCell × PCell))
  | [] => some []
  | a :: b :: rest => (toPairs rest).map (fun ps => (a, b) :: ps)
  | [_] => none

/-- One iteration of the parameter loop in `Conversion.wkt`: look up the
parameter name in the mapping (`KeyError` on a miss), fetch unit, authority
and code (`IndexError` on a missing unit), and substitute the PARAMETER
template. -/
def renderParam (parameter : PCell × PCell) : Option String := do
  let method_and_map ← ProjectionBody.mapping parameter.1
  let unit ← method_and_map.get? 2
  let authority ← method_and_map.get? 0
  let authority_code ← method_and_map.get? 1
  substitute TEMPLATE_PARAMETER
    [("parameter_name", parameter.1.render),
     ("parameter_value", parameter.2.render),
     ("unit", unit.render),
     ("authority", authority.render),
     ("authority_code", authority_code.render)]

/-- The parameter loop of `Conversion.wkt`: renders one PARAMETER clause
per pair, in order, failing as soon as one pair fails. -/
def renderParams : List (PCell × PCell) → Option (List String)
  | [] => some []
  | p :: rest =>
    match renderParam p with
    | none => none
    | some s => (renderParams rest).map (fun ss => s :: ss)

/-- `Conversion.wkt`: drops the first three cells, filters out `None`
cells, pairs them up, renders each PARAMETER clause, resolves the method
name through the same mapping and substitutes the CONVERSION template. -/
def wkt (projection : List PCell) : Option String := do
  let pairs ← toPairs ((projection.drop 3).filter (fun c => c ≠ PCell.null))
  let params ← renderParams pairs
  let conversion_name ← projection.get? 1
  let method_name ← projection.get? 2
  let method_map ← ProjectionBody.mapping method_name
  let authority ← method_map.get? 0
  let authority_code ← method_map.get? 1
  substitute TEMPLATE_CONVERSION
    [("conversion_name", conversion_name.render),
     ("method_name", method_name.render),
     ("authority", authority.render),
     ("authority_code", authority_code.render),
     ("params", String.intercalate ",\n\t\t" params)]

end Conversion

namespace ProjectionBody

/-- `ProjectionBody.TEMPLATE_OCENTRIC_SPHERE` from the source. -/
def TEMPLATE_OCENTRIC_SPHERE : String :=
  "PROJCRS[\"$projection_name\",\n    BASEGEOGCRS[\"$name ($version) $reference\",\n        $datum,\n        ID[\"IAU\", $number_body, $version]],\n    $conversion\n    CS[Cartesian, 2],\n        AXIS[\"$direction_name\", $direction,\n            ORDER[1],\n            LENGTHUNIT[\"metre\", 1]],\n        AXIS[\"Northing (N)\", north,\n            ORDER[2],\n            LENGTHUNIT[\"metre\", 1]],\n    ID[\"IAU\", $number, $version]]"

/-- `ProjectionBody.TEMPLATE_OCENTRIC` from the source. -/
def TEMPLATE_OCENTRIC : String :=
  "PROJCRS[\"$projection_name\",\n    BASEGEODCRS[\"$name ($version) $reference\",\n        $datum,\n        ID[\"IAU\", $number_body, $version]],\n    $conversion\n    CS[Cartesian, 2],\n        AXIS[\"$direction_name\", $direction,\n            ORDER[1],\n            LENGTHUNIT[\"metre\", 1]],\n        AXIS[\"Northing (N)\", north,\n            ORDER[2],\n            LENGTHUNIT[\"metre\", 1]],\n    ID[\"IAU\", $number, $version]]"

/-- `ProjectionBody.TEMPLATE_OGRAPHIC` from the source. -/
def TEMPLATE_OGRAPHIC : String :=
  "PROJCRS[\"$projection_name\",\n    BASEGEOGCRS[\"$name ($version) $reference\",\n        $datum,\n        ID[\"IAU\", $number_body, $version]],\n    $conversion\n    CS[Cartesian, 2],\n        AXIS[\"$direction_name\", $direction,\n            ORDER[1],\n            LENGTHUNIT[\"metre\", 1]],\n        AXIS[\"Northing (N)\", north,\n            ORDER[2],\n            LENGTHUNIT[\"metre\", 1]],\n    ID[\"IAU\", $number, $version]]"

end ProjectionBody

/-- The `ProjectionBody` object: a body CRS, one catalog row and the
selected projected template. -/
structure ProjectionBody where
  body_crs : BodyCrs
  projection : List PCell
  template : String
deriving DecidableEq

namespace ProjectionBody

/-- `ProjectionBody.create`: selects the projected template by the CRS
type and the body shape. The Python `else: raise ValueError` branch is
unreachable because `CrsType` has exactly the two members matched. -/
def create (body_crs : BodyCrs) (projection : List PCell) : ProjectionBody :=
  if body_crs.crs_type = CrsType.OCENTRIC ∧
      body_crs.datum.body.shape = ReferenceShape.SPHERE then
    { body_crs := body_crs, projection := projection,
      template := TEMPLATE_OCENTRIC_SPHERE }
  else if body_crs.crs_type = CrsType.OCENTRIC then
    { body_crs := body_crs, projection := projection,
      template := TEMPLATE_OCENTRIC }
  else
    { body_crs := body_crs, projection := projection,
      template := TEMPLATE_OGRAPHIC }

/-- `ProjectionBody.iau_code`: the body CRS code plus
`int(self.projection[0])`; `none` models the index or conversion error on
a malformed row. -/
def iau_code (p : ProjectionBody) : Option Int :=
  ((p.projection.get? 0).bind PCell.asInt).map (fun off => p.body_crs.number + off)

/-- `ProjectionBody._create_projection`: the human-readable projection
label; reads `projection[1]` (`none` models the index error on a short
row). -/
def createProjection (p : ProjectionBody) : Option String := do
  let cell1 ← p.projection.get? 1
  let projection :=
    p.body_crs.datum.body.name ++ " (" ++ IAU_REPORT.VERSION ++ ") "
  if p.body_crs.crs_type = CrsType.OCENTRIC ∧
      p.body_crs.datum.body.shape = ReferenceShape.SPHERE then
    some (projection ++ "- " ++ p.body_crs.datum.body.shape.value ++
      " / " ++ cell1.render)
  else
    some (projection ++ "/ " ++ p.body_crs.crs_type.value ++
      " / " ++ cell1.render)

/-- `ProjectionBody._create_reference`. -/
def createReference (p : ProjectionBody) : String :=
  if p.body_crs.crs_type = CrsType.OCENTRIC ∧
      p.body_crs.datum.body.shape = ReferenceShape.SPHERE then
    "- " ++ p.body_crs.datum.body.shape.value
  else
    "/ " ++ p.body_crs.crs_type.value

/-- Python `str()` on the optional direction: `None` renders as the
literal text `None`. -/
def pyStr : Option String → String
  | none => "None"
  | some s => s

/-- The `direction_name` expression inside `ProjectionBody.wkt`. -/
def direction_name (p : ProjectionBody) : String :=
  if p.body_crs.direction = some "west" then "Westing (W)" else "Easting (E)"

/-- `ProjectionBody.wkt`: renders the conversion clause and substitutes
the projected template. Note that, unlike `BodyCrs.wkt`, it performs no
assertion on the direction: an unresolved direction is stringified to the
literal text `None`. -/
def wkt (p : ProjectionBody) : Option String := do
  let conversion ← Conversion.wkt p.projection
  let projection_name ← createProjection p
  let cell0 ← p.projection.get? 0
  let off ← cell0.asInt
  substitute p.template
    [("projection_name", projection_name),
     ("name", p.body_crs.name),
     ("version", IAU_REPORT.VERSION),
     ("datum", p.body_crs.datum.wkt),
     ("number", toString (p.body_crs.number + off)),
     ("number_body", toString p.body_crs.number),
     ("conversion", conversion),
     ("reference", createReference p),
     ("direction", pyStr p.body_crs.direction),
     ("direction_name", p.direction_name)]

/-- `ProjectionBody.iter_projection`: one `ProjectionBody` per catalog
row, in catalog declaration order (the Python generator, reified as the
finite list it yields). -/
def iter_projection (body_crs : BodyCrs) : List ProjectionBody :=
  PROJECTION_DATA.map (fun projection => create body_crs projection)

end ProjectionBody

/-- Substring test on character lists (used to inspect rendered WKT). -/
def isSubstr (pat : List Char) : List Char → Bool
  | [] => pat.isEmpty
  | c :: rest => pat.isPrefixOf (c :: rest) || isSubstr pat rest

/-- Substring test on strings. -/
def strContains (s pat : String) : Bool := isSubstr pat.data s.data

/-- Direction resolver written from the specification's words (section 4.1,
rules 1 to 5, first match wins), to be compared with the source's
`createDirection`. -/
def directionResolverSpec (name rotation : String) (crs_type : CrsType)
    (registry_identifier : Int) : Option String :=
  if registry_identifier ≥ 90000 ∨ pyUpper name = "SUN" ∨
      pyUpper name = "EARTH" ∨ pyUpper name = "MOON" then
    some "east"
  else if crs_type = CrsType.OCENTRIC then
    some "east"
  else if rotation = "Direct" then
    some "west"
  else if rotation = "Retrograde" then
    some "east"
  else
    none

section Helpers

lemma mem_exception_iff (name : String) :
    pyUpper name ∈ ["SUN", "EARTH", "MOON"] ↔
      (pyUpper name = "SUN" ∨ pyUpper name = "EARTH" ∨ pyUpper name = "MOON") := by
  simp

lemma direction_ocentric_east (name rotation : String) (n : Int) :
    createDirection name rotation CrsType.OCENTRIC n = some "east" := by
  unfold createDirection
  split
  · rfl
  · rw [if_pos rfl]

lemma substitute_sphere_isSome (a b c d e f : String) :
    (substitute BodyCrs.TEMPLATE_SPHERE
      [("name", a), ("version", b), ("datum", c), ("number", d),
       ("direction", e), ("remark", f)]).isSome = true := rfl

lemma substitute_ocentric_isSome (a b c d e f : String) :
    (substitute BodyCrs.TEMPLATE_OCENTRIC
      [("name", a), ("version", b), ("datum", c), ("number", d),
       ("direction", e), ("remark", f)]).isSome = true := rfl

lemma substitute_ographic_isSome (a b c d e f : String) :
    (substitute BodyCrs.TEMPLATE_OGRAPHIC
      [("name", a), ("version", b), ("datum", c), ("number", d),
       ("direction", e), ("remark", f)]).isSome = true := rfl

end Helpers

/-- C1: direction resolution follows exactly the spec's first-match-wins
rule order (the source resolver coincides with the rule chain written from
the spec), and the first rule yields east regardless of the rotation
token. -/
theorem C1_direction_resolution_order :
    ∀ (name rotation : String) (ct : CrsType) (n : Int),
      createDirection name rotation ct n =
        directionResolverSpec name rotation ct n ∧
      ((n ≥ 90000 ∨ pyUpper name = "SUN" ∨ pyUpper name = "EARTH" ∨
          pyUpper name = "MOON") →
        createDirection name rotation ct n = some "east") := by
  intro name rotation ct n
  have hiff : (n ≥ 90000 ∨ pyUpper name ∈ ["SUN", "EARTH", "MOON"]) ↔
      (n ≥ 90000 ∨ pyUpper name = "SUN" ∨ pyUpper name = "EARTH" ∨
        pyUpper name = "MOON") :=
    or_congr_right (mem_exception_iff name)
  constructor
  · unfold createDirection directionResolverSpec
    by_cases h1 : n ≥ 90000 ∨ pyUpper name ∈ ["SUN", "EARTH", "MOON"]
    · rw [if_pos h1, if_pos (hiff.mp h1)]
    · rw [if_neg h1, if_neg (fun hc => h1 (hiff.mpr hc))]
  · intro h
    unfold createDirection
    rw [if_pos]
    rcases h with h | h
    · exact Or.inl h
    · exact Or.inr ((mem_exception_iff name).mpr h)

/-- Witness for C1: a body with registry identifier 120000 and rotation
token Direct still resolves to east (rule 1 overrides the rotation). -/
theorem C1_direction_resolution_order_witness :
    createDirection "Varuna" "Direct" CrsType.OGRAPHIC 120000 = some "east" :=
  (C1_direction_resolution_order "Varuna" "Direct" CrsType.OGRAPHIC 120000).2
    (Or.inl (by decide))

/-- C2: the five (shape, frame-type) offsets are 0 to 4 as tabled and
pairwise distinct; the assigned code is registry identifier times 100 plus
the offset (also through template-and-number selection), so the five codes
for one registry identifier are pairwise distinct; the assignment is
deterministic. -/
theorem C2_code_assignment :
    (BodyCrsCode.SPHERE_OCENTRIC.code = 0 ∧
     BodyCrsCode.ELLIPSE_OGRAPHIC.code = 1 ∧
     BodyCrsCode.ELLIPSE_OCENTRIC.code = 2 ∧
     BodyCrsCode.TRIAXIAL_OGRAPHIC.code = 3 ∧
     BodyCrsCode.TRIAXIAL_OCENTRIC.code = 4) ∧
    (∀ (b : BodyCrsCode) (n : Int), b.get_code n = n * 100 + b.code) ∧
    (∀ b : BodyCrsCode, b.code ∈ ([0, 1, 2, 3, 4] : List Int)) ∧
    (∀ b b' : BodyCrsCode, b ≠ b' → b.code ≠ b'.code) ∧
    (∀ (n : Int) (b b' : BodyCrsCode), b ≠ b' →
      b.get_code n ≠ b'.get_code n) ∧
    (∀ (b : BodyCrsCode) (n : Int), b.get_code n = b.get_code n) ∧
    (∀ naif : Int,
      (getTemplateAndNumber CrsType.OCENTRIC ReferenceShape.SPHERE naif).map
          Prod.snd = some (naif * 100 + 0) ∧
      (getTemplateAndNumber CrsType.OGRAPHIC ReferenceShape.ELLIPSE naif).map
          Prod.snd = some (naif * 100 + 1) ∧
      (getTemplateAndNumber CrsType.OCENTRIC ReferenceShape.ELLIPSE naif).map
          Prod.snd = some (naif * 100 + 2) ∧
      (getTemplateAndNumber CrsType.OGRAPHIC ReferenceShape.TRIAXIAL naif).map
          Prod.snd = some (naif * 100 + 3) ∧
      (getTemplateAndNumber CrsType.OCENTRIC ReferenceShape.TRIAXIAL naif).map
          Prod.snd = some (naif * 100 + 4)) := by
  have hdist : ∀ b b' : BodyCrsCode, b ≠ b' → b.code ≠ b'.code := by
    intro b b' hne
    cases b <;> cases b' <;> first | exact absurd rfl hne | decide
  refine ⟨by decide, fun b n => rfl, by intro b; cases b <;> decide, hdist,
    ?_, fun b n => rfl, fun naif => ⟨rfl, rfl, rfl, rfl, rfl⟩⟩
  intro n b b' hne heq
  apply hdist b b' hne
  unfold BodyCrsCode.get_code at heq
  omega

/-- Witness for C2: for registry identifier 499 the Ocentric-Ellipse code
differs from the Sphere code. -/
theorem C2_code_assignment_witness :
    BodyCrsCode.ELLIPSE_OCENTRIC.get_code 499 ≠
      BodyCrsCode.SPHERE_OCENTRIC.get_code 499 :=
  C2_code_assignment.2.2.2.2.1 499 BodyCrsCode.ELLIPSE_OCENTRIC
    BodyCrsCode.SPHERE_OCENTRIC (by decide)

/-- C3: rendering a `BodyCrs` whose resolved direction is unresolved fails
(the assert fires) and returns no text at all. -/
theorem C3_bodycrs_render_unresolved_fails :
    ∀ c : BodyCrs, c.direction = none → BodyCrs.wkt c = none := by
  intro c h
  unfold BodyCrs.wkt
  rw [h]

/-- Supporting input for witnesses: an Ographic body below the small-body
range, outside the name exceptions, with an unrecognized rotation token. -/
def ioDatum : Datum :=
  { name := "Io"
    body := { name := "Io", shape := ReferenceShape.ELLIPSE, warning := none }
    wktFragment := "DATUM[\"Io (2015)\"]" }

/-- The `BodyCrs` the source constructs for `ioDatum` with an unknown
rotation token in the Ographic frame (direction unresolved). -/
def ioCrsVal : BodyCrs :=
  { datum := ioDatum
    crs_type := CrsType.OGRAPHIC
    direction := none
    name := "Io"
    number := 50101
    template := BodyCrs.TEMPLATE_OGRAPHIC }

/-- Witness for C3: the concrete unresolved-direction CRS renders to
nothing, and it is the value the constructor produces. -/
theorem C3_bodycrs_render_unresolved_fails_witness :
    BodyCrs.wkt ioCrsVal = none ∧
      BodyCrs.init ioDatum 501 "Synchronous" CrsType.OGRAPHIC = some ioCrsVal :=
  ⟨C3_bodycrs_render_unresolved_fails ioCrsVal rfl, by decide⟩

/-- The projected CRS the source builds over the unresolved-direction
`BodyCrs`, using the Sinusoidal catalog row, and its rendered text. -/
def ioProjWkt : Option String := do
  let c ← BodyCrs.init ioDatum 501 "Synchronous" CrsType.OGRAPHIC
  let row ← ProjectionBody.PROJECTION_DATA.get? 2
  ProjectionBody.wkt (ProjectionBody.create c row)

/-- C4 (code evaluated at the failing input): for a `BodyCrs` with
unresolved direction, `ProjectionBody.wkt` does NOT fail; it returns full
WKT text in which the axis direction token is the literal text `None`
(and the first axis label silently defaults to Easting). This contradicts
the claim that rendering raises a hard failure and returns no text. -/
theorem C4_projection_render_emits_literal_none :
    (BodyCrs.init ioDatum 501 "Synchronous" CrsType.OGRAPHIC).map
        (fun c => c.direction) = some none ∧
    ioProjWkt.isSome = true ∧
    ioProjWkt.map (fun s => strContains s "AXIS[\"Easting (E)\", None,") =
      some true := by
  refine ⟨by decide, by decide, by decide⟩

/-- C5: the WKT template family of a `BodyCrs` is selected exactly by
(shape, frame type) — Sphere+Ocentric the sphere geographic template,
Ellipse/Triaxial+Ocentric the geocentric template, Ellipse/Triaxial+
Ographic the geographic template — every constructed `BodyCrs` carries the
pair produced by that selection, and the three templates have the claimed
shapes (GEOGCRS with ellipsoidal CS and hard-coded east for the sphere,
GEODCRS with spherical CS for the geocentric, GEOGCRS with ellipsoidal CS
and a substituted direction for the geographic). -/
theorem C5_template_family_selection :
    (∀ naif : Int,
      (getTemplateAndNumber CrsType.OCENTRIC ReferenceShape.SPHERE naif).map
          Prod.fst = some BodyCrs.TEMPLATE_SPHERE ∧
      (getTemplateAndNumber CrsType.OCENTRIC ReferenceShape.ELLIPSE naif).map
          Prod.fst = some BodyCrs.TEMPLATE_OCENTRIC ∧
      (getTemplateAndNumber CrsType.OCENTRIC ReferenceShape.TRIAXIAL naif).map
          Prod.fst = some BodyCrs.TEMPLATE_OCENTRIC ∧
      (getTemplateAndNumber CrsType.OGRAPHIC ReferenceShape.ELLIPSE naif).map
          Prod.fst = some BodyCrs.TEMPLATE_OGRAPHIC ∧
      (getTemplateAndNumber CrsType.OGRAPHIC ReferenceShape.TRIAXIAL naif).map
          Prod.fst = some BodyCrs.TEMPLATE_OGRAPHIC) ∧
    (∀ (d : Datum) (n : Int) (rot : String) (ct : CrsType) (c : BodyCrs),
      BodyCrs.init d n rot ct = some c →
        getTemplateAndNumber ct d.body.shape n = some (c.template, c.number)) ∧
    strContains BodyCrs.TEMPLATE_SPHERE "GEOGCRS[" = true ∧
    strContains BodyCrs.TEMPLATE_SPHERE "CS[ellipsoidal, 2]" = true ∧
    strContains BodyCrs.TEMPLATE_SPHERE
      "AXIS[\"geodetic longitude (Lon)\", east," = true ∧
    strContains BodyCrs.TEMPLATE_SPHERE "$direction" = false ∧
    strContains BodyCrs.TEMPLATE_OCENTRIC "GEODCRS[" = true ∧
    strContains BodyCrs.TEMPLATE_OCENTRIC "CS[spherical, 2]" = true ∧
    strContains BodyCrs.TEMPLATE_OGRAPHIC "GEOGCRS[" = true ∧
    strContains BodyCrs.TEMPLATE_OGRAPHIC "CS[ellipsoidal, 2]" = true ∧
    strContains BodyCrs.TEMPLATE_OGRAPHIC
      "AXIS[\"geodetic longitude (Lon)\", $direction," = true := by
  refine ⟨fun naif => ⟨rfl, rfl, rfl, rfl, rfl⟩, ?_, by decide, by decide,
    by decide, by decide, by decide, by decide, by decide, by decide,
    by decide⟩
  intro d n rot ct c hc
  unfold BodyCrs.init at hc
  cases hg : getTemplateAndNumber ct d.body.shape n with
  | none => rw [hg] at hc; exact absurd hc (by simp)
  | some tn =>
    obtain ⟨t, num⟩ := tn
    rw [hg] at hc
    simp only [Option.some.injEq] at hc
    rw [← hc]

/-- Witness for C5: the Mars-like Ocentric Ellipse construction carries
the geocentric template and code 49902. -/
theorem C5_template_family_selection_witness :
    getTemplateAndNumber CrsType.OCENTRIC ReferenceShape.ELLIPSE 499 =
      some (BodyCrs.TEMPLATE_OCENTRIC, 49902) := by
  have h := C5_template_family_selection.2.1
    ⟨"Mars", ⟨"Mars", ReferenceShape.ELLIPSE, none⟩, "D"⟩ 499 "Direct"
    CrsType.OCENTRIC
    ⟨⟨"Mars", ⟨"Mars", ReferenceShape.ELLIPSE, none⟩, "D"⟩, CrsType.OCENTRIC,
      some "east", "Mars", 49902, BodyCrs.TEMPLATE_OCENTRIC⟩ (by decide)
  exact h

/-- C8: constructing a `BodyCrs` for any (shape, frame-type) pair outside
the five valid combinations — Sphere with Ographic, or an unrecognized
shape with either frame type — fails at construction time; construction
succeeds exactly on the five valid combinations. -/
theorem C8_invalid_shape_frame_fails :
    ∀ (d : Datum) (n : Int) (rot : String),
      (BodyCrs.init d n rot CrsType.OGRAPHIC = none ↔
        (d.body.shape = ReferenceShape.SPHERE ∨
          ∃ label, d.body.shape = ReferenceShape.UNKNOWN label)) ∧
      (BodyCrs.init d n rot CrsType.OCENTRIC = none ↔
        (∃ label, d.body.shape = ReferenceShape.UNKNOWN label)) := by
  intro d n rot
  obtain ⟨dn, ⟨bn, shape, w⟩, frag⟩ := d
  cases shape <;>
    simp [BodyCrs.init, getTemplateAndNumber]

/-- Witness for C8: Sphere with Ographic fails; Sphere with Ocentric and
Ellipse with Ographic succeed. -/
theorem C8_invalid_shape_frame_fails_witness :
    BodyCrs.init ⟨"Vesta", ⟨"Vesta", ReferenceShape.SPHERE, none⟩, "D"⟩ 2000004
        "Direct" CrsType.OGRAPHIC = none ∧
    BodyCrs.init ⟨"Vesta", ⟨"Vesta", ReferenceShape.UNKNOWN "Cube", none⟩, "D"⟩
        2000004 "Direct" CrsType.OCENTRIC = none ∧
    BodyCrs.init ioDatum 501 "Synchronous" CrsType.OGRAPHIC ≠ none := by
  refine ⟨(C8_invalid_shape_frame_fails
      ⟨"Vesta", ⟨"Vesta", ReferenceShape.SPHERE, none⟩, "D"⟩ 2000004
      "Direct").1.mpr (Or.inl rfl),
    (C8_invalid_shape_frame_fails
      ⟨"Vesta", ⟨"Vesta", ReferenceShape.UNKNOWN "Cube", none⟩, "D"⟩ 2000004
      "Direct").2.mpr ⟨"Cube", rfl⟩, by decide⟩

section Helpers2

lemma create_projection_eq (crs : BodyCrs) (proj : List PCell) :
    (ProjectionBody.create crs proj).projection = proj := by
  unfold ProjectionBody.create
  split_ifs <;> rfl

lemma create_body_crs_eq (crs : BodyCrs) (proj : List PCell) :
    (ProjectionBody.create crs proj).body_crs = crs := by
  unfold ProjectionBody.create
  split_ifs <;> rfl

lemma opt_bind_none_of_inner {α β : Type} (o : Option α) (f : α → Option β)
    (h : ∀ a, f a = none) : o >>= f = none := by
  cases o with
  | none => rfl
  | some a => exact h a

lemma wkt_isSome_of_east (c : BodyCrs) (hd : c.direction = some "east")
    (ht : c.template = BodyCrs.TEMPLATE_SPHERE ∨
      c.template = BodyCrs.TEMPLATE_OCENTRIC ∨
      c.template = BodyCrs.TEMPLATE_OGRAPHIC) :
    (BodyCrs.wkt c).isSome = true := by
  unfold BodyCrs.wkt
  rw [hd]
  rcases ht with h | h | h <;> rw [h]
  · exact substitute_sphere_isSome _ _ _ _ _ _
  · exact substitute_ocentric_isSome _ _ _ _ _ _
  · exact substitute_ographic_isSome _ _ _ _ _ _

end Helpers2

/-- C10: the resolved direction of every Ocentric construction is east (the
first two resolver rules cover all Ocentric inputs), so rendering a
constructed Ocentric CRS never fails on an unresolved direction; the
unresolved outcome happens exactly for Ographic inputs with registry
identifier below 90000, name outside the exception set, and a rotation
token that is neither Direct nor Retrograde. -/
theorem C10_ocentric_direction_invariant :
    (∀ (name rotation : String) (n : Int),
      createDirection name rotation CrsType.OCENTRIC n = some "east") ∧
    (∀ (name rotation : String) (n : Int),
      createDirection name rotation CrsType.OGRAPHIC n = none ↔
        (n < 90000 ∧ pyUpper name ∉ ["SUN", "EARTH", "MOON"] ∧
         rotation ≠ "Direct" ∧ rotation ≠ "Retrograde")) ∧
    (∀ (d : Datum) (n : Int) (rot : String) (c : BodyCrs),
      BodyCrs.init d n rot CrsType.OCENTRIC = some c →
        (BodyCrs.wkt c).isSome = true) := by
  refine ⟨direction_ocentric_east, ?_, ?_⟩
  · intro name rotation n
    constructor
    · intro hnone
      unfold createDirection at hnone
      by_cases h1 : n ≥ 90000 ∨ pyUpper name ∈ ["SUN", "EARTH", "MOON"]
      · rw [if_pos h1] at hnone
        exact absurd hnone (by simp)
      · rw [if_neg h1,
          if_neg (by decide : ¬(CrsType.OGRAPHIC = CrsType.OCENTRIC))] at hnone
        by_cases h3 : rotation = "Direct"
        · rw [if_pos h3] at hnone
          exact absurd hnone (by simp)
        · rw [if_neg h3] at hnone
          by_cases h4 : rotation = "Retrograde"
          · rw [if_pos h4] at hnone
            exact absurd hnone (by simp)
          · push_neg at h1
            exact ⟨by omega, h1.2, h3, h4⟩
    · rintro ⟨hn, hmem, hd, hr⟩
      unfold createDirection
      rw [if_neg (by push_neg; exact ⟨by omega, hmem⟩),
        if_neg (by decide : ¬(CrsType.OGRAPHIC = CrsType.OCENTRIC)),
        if_neg hd, if_neg hr]
  · intro d n rot c hc
    obtain ⟨dn, ⟨bn, shape, w⟩, frag⟩ := d
    cases shape with
    | SPHERE =>
      simp only [BodyCrs.init, getTemplateAndNumber,
        Option.some.injEq] at hc
      refine wkt_isSome_of_east c ?_ (Or.inl ?_)
      · rw [← hc]
        exact direction_ocentric_east dn rot n
      · rw [← hc]
    | ELLIPSE =>
      simp only [BodyCrs.init, getTemplateAndNumber,
        Option.some.injEq] at hc
      refine wkt_isSome_of_east c ?_ (Or.inr (Or.inl ?_))
      · rw [← hc]
        exact direction_ocentric_east dn rot n
      · rw [← hc]
    | TRIAXIAL =>
      simp only [BodyCrs.init, getTemplateAndNumber,
        Option.some.injEq] at hc
      refine wkt_isSome_of_east c ?_ (Or.inr (Or.inl ?_))
      · rw [← hc]
        exact direction_ocentric_east dn rot n
      · rw [← hc]
    | UNKNOWN label =>
      exact absurd hc (by simp [BodyCrs.init, getTemplateAndNumber])

/-- Supporting input for witnesses: the Mars-like Ocentric Ellipse body of
the spec's scenario A. -/
def marsDatum : Datum :=
  { name := "Mars"
    body := { name := "Mars", shape := ReferenceShape.ELLIPSE, warning := none }
    wktFragment := "DATUM[\"Mars (2015)\"]" }

/-- The `BodyCrs` the source constructs for `marsDatum` in the Ocentric
frame with rotation token Direct. -/
def marsCrsO : BodyCrs :=
  { datum := marsDatum
    crs_type := CrsType.OCENTRIC
    direction := some "east"
    name := "Mars"
    number := 49902
    template := BodyCrs.TEMPLATE_OCENTRIC }

/-- Witness for C10: the Mars-like Ocentric construction succeeds with
direction east (despite rotation Direct) and renders. -/
theorem C10_ocentric_direction_invariant_witness :
    BodyCrs.init marsDatum 499 "Direct" CrsType.OCENTRIC = some marsCrsO ∧
      (BodyCrs.wkt marsCrsO).isSome = true := by
  have h : BodyCrs.init marsDatum 499 "Direct" CrsType.OCENTRIC =
      some marsCrsO := by decide
  exact ⟨h,
    C10_ocentric_direction_invariant.2.2 marsDatum 499 "Direct" marsCrsO h⟩

/-- C6: the projected template is BASEGEOGCRS-based for Ocentric+Sphere,
BASEGEODCRS-based for the other Ocentric combinations, BASEGEOGCRS-based
for Ographic; the projected code is the body code plus the record offset;
and the first Cartesian axis is labeled Westing (W) exactly when the body
direction is west, else Easting (E). -/
theorem C6_projected_crs_structure :
    ∀ (crs : BodyCrs) (projection : List PCell),
      ((crs.crs_type = CrsType.OCENTRIC ∧
          crs.datum.body.shape = ReferenceShape.SPHERE) →
        (ProjectionBody.create crs projection).template =
          ProjectionBody.TEMPLATE_OCENTRIC_SPHERE) ∧
      ((crs.crs_type = CrsType.OCENTRIC ∧
          crs.datum.body.shape ≠ ReferenceShape.SPHERE) →
        (ProjectionBody.create crs projection).template =
          ProjectionBody.TEMPLATE_OCENTRIC) ∧
      (crs.crs_type = CrsType.OGRAPHIC →
        (ProjectionBody.create crs projection).template =
          ProjectionBody.TEMPLATE_OGRAPHIC) ∧
      strContains ProjectionBody.TEMPLATE_OCENTRIC_SPHERE "BASEGEOGCRS[" =
        true ∧
      strContains ProjectionBody.TEMPLATE_OCENTRIC "BASEGEODCRS[" = true ∧
      strContains ProjectionBody.TEMPLATE_OGRAPHIC "BASEGEOGCRS[" = true ∧
      (∀ off : Int, (projection.get? 0).bind PCell.asInt = some off →
        (ProjectionBody.create crs projection).iau_code =
          some (crs.number + off)) ∧
      ((ProjectionBody.create crs projection).direction_name =
        if crs.direction = some "west" then "Westing (W)" else "Easting (E)") := by
  intro crs projection
  refine ⟨?_, ?_, ?_, by decide, by decide, by decide, ?_, ?_⟩
  · rintro ⟨h1, h2⟩
    simp [ProjectionBody.create, h1, h2]
  · rintro ⟨h1, h2⟩
    simp [ProjectionBody.create, h1, h2]
  · intro h
    simp [ProjectionBody.create, h]
  · intro off hoff
    unfold ProjectionBody.iau_code
    rw [create_projection_eq, create_body_crs_eq, hoff]
    rfl
  · simp [ProjectionBody.direction_name, create_body_crs_eq]

/-- The North Polar catalog row (offset 30). -/
def northPolarRow : List PCell :=
  (ProjectionBody.PROJECTION_DATA.get? 4).getD []

/-- Witness for C6: the North Polar projection over the Mars-like Ocentric
Ellipse CRS uses the geodetic base template, gets code 49932, and labels
the first axis Easting (E). -/
theorem C6_projected_crs_structure_witness :
    (ProjectionBody.create marsCrsO northPolarRow).template =
      ProjectionBody.TEMPLATE_OCENTRIC ∧
    (ProjectionBody.create marsCrsO northPolarRow).iau_code = some 49932 ∧
    (ProjectionBody.create marsCrsO northPolarRow).direction_name =
      "Easting (E)" := by
  refine ⟨(C6_projected_crs_structure marsCrsO northPolarRow).2.1
      ⟨rfl, by decide⟩, ?_, ?_⟩
  · have h := (C6_projected_crs_structure marsCrsO northPolarRow).2.2.2.2.2.2.1
      30 (by decide)
    exact h.trans (by decide)
  · have h := (C6_projected_crs_structure marsCrsO northPolarRow).2.2.2.2.2.2.2
    exact h.trans (by decide)

/-- C7: every catalog row renders a conversion clause (all its parameter
and method names are mapped); the parameter loop emits exactly one clause
per pair, in declaration order, each built from the mapped authority, code
and unit; a pair whose name is unmapped makes the loop fail; and an
unmapped method name makes the whole conversion rendering fail. -/
theorem C7_conversion_rendering :
    (∀ row ∈ ProjectionBody.PROJECTION_DATA,
      (Conversion.wkt row).isSome = true) ∧
    (∀ (pairs : List (PCell × PCell)) (params : List String),
      Conversion.renderParams pairs = some params →
        params.length = pairs.length ∧
        ∀ (i : Nat) (h1 : i < pairs.length) (h2 : i < params.length),
          Conversion.renderParam (pairs.get ⟨i, h1⟩) =
            some (params.get ⟨i, h2⟩)) ∧
    (∀ (pairs : List (PCell × PCell)) (p : PCell × PCell), p ∈ pairs →
      ProjectionBody.mapping p.1 = none →
        Conversion.renderParams pairs = none) ∧
    (∀ row : List PCell, (row.get? 2).bind ProjectionBody.mapping = none →
      Conversion.wkt row = none) ∧
    (∀ (param : PCell × PCell) (entry : List PCell)
        (authority code unit : PCell),
      ProjectionBody.mapping param.1 = some entry →
      entry.get? 0 = some authority → entry.get? 1 = some code →
      entry.get? 2 = some unit →
        Conversion.renderParam param =
          substitute Conversion.TEMPLATE_PARAMETER
            [("parameter_name", param.1.render),
             ("parameter_value", param.2.render),
             ("unit", unit.render),
             ("authority", authority.render),
             ("authority_code", code.render)]) := by
  refine ⟨by decide, ?_, ?_, ?_, ?_⟩
  · intro pairs
    induction pairs with
    | nil =>
      intro params h
      simp only [Conversion.renderParams, Option.some.injEq] at h
      subst h
      exact ⟨rfl, fun i h1 h2 => absurd h1 (by simp)⟩
    | cons p rest ih =>
      intro params h
      unfold Conversion.renderParams at h
      cases hp : Conversion.renderParam p with
      | none => rw [hp] at h; exact absurd h (by simp)
      | some s =>
        rw [hp] at h
        cases hr : Conversion.renderParams rest with
        | none => rw [hr] at h; exact absurd h (by simp)
        | some ss =>
          rw [hr] at h
          simp only [Option.map_some', Option.some.injEq] at h
          subst h
          obtain ⟨hlen, hidx⟩ := ih ss hr
          refine ⟨by simp [hlen], ?_⟩
          intro i h1 h2
          cases i with
          | zero => simpa using hp
          | succ j =>
            exact hidx j (by simpa using h1) (by simpa using h2)
  · intro pairs
    induction pairs with
    | nil => intro p hp; exact absurd hp (by simp)
    | cons q rest ih =>
      intro p hp hmap
      unfold Conversion.renderParams
      rcases List.mem_cons.mp hp with rfl | hp2
      · have hnone : Conversion.renderParam p = none := by
          unfold Conversion.renderParam
          rw [hmap]
          rfl
        rw [hnone]
      · cases hq : Conversion.renderParam q with
        | none => rfl
        | some s =>
          rw [ih p hp2 hmap]
          rfl
  · intro row h
    unfold Conversion.wkt
    apply opt_bind_none_of_inner
    intro pairs
    apply opt_bind_none_of_inner
    intro params
    apply opt_bind_none_of_inner
    intro c1
    cases h4 : row.get? 2 with
    | none => rfl
    | some c2 =>
      have h5 : ProjectionBody.mapping c2 = none := by
        rw [h4] at h
        simpa using h
      simp [h5]
  · intro param entry authority code unit h1 h2 h3 h4
    simp only [List.get?_eq_getElem?] at h2 h3 h4
    simp [Conversion.renderParam, h1, h2, h3, h4]

/-- Witness for C7: the North Polar row renders, and a loop over an
unmapped parameter name fails. -/
theorem C7_conversion_rendering_witness :
    (Conversion.wkt northPolarRow).isSome = true ∧
    Conversion.renderParams [(PCell.str "Banana", PCell.int 0)] = none := by
  refine ⟨C7_conversion_rendering.1 northPolarRow (by decide),
    C7_conversion_rendering.2.2.1 [(PCell.str "Banana", PCell.int 0)]
      (PCell.str "Banana", PCell.int 0) (by simp) (by decide)⟩

/-- C9: iterating the projection catalog for a body yields exactly one
`ProjectionBody` per catalog entry — 17 in all — in declaration order,
each wrapping the iterated body CRS, with the distinct offsets 10 to 90;
and two iterations over the same body CRS are identical. -/
theorem C9_iter_projection_catalog :
    ∀ crs : BodyCrs,
      (ProjectionBody.iter_projection crs).length = 17 ∧
      (ProjectionBody.iter_projection crs).length =
        ProjectionBody.PROJECTION_DATA.length ∧
      ((ProjectionBody.iter_projection crs).map ProjectionBody.projection) =
        ProjectionBody.PROJECTION_DATA ∧
      (∀ p ∈ ProjectionBody.iter_projection crs, p.body_crs = crs) ∧
      ((ProjectionBody.iter_projection crs).map
          (fun p => (p.projection.get? 0).bind PCell.asInt)) =
        [some 10, some 15, some 20, some 25, some 30, some 35, some 40,
         some 45, some 50, some 55, some 60, some 65, some 70, some 75,
         some 80, some 85, some 90] ∧
      ((ProjectionBody.iter_projection crs).map
          (fun p => (p.projection.get? 0).bind PCell.asInt)).Nodup ∧
      ProjectionBody.iter_projection crs = ProjectionBody.iter_projection crs := by
  intro crs
  have hcomp : ∀ {α : Type} (f : List PCell → α),
      ((fun p => f p.projection) ∘ ProjectionBody.create crs) = f := by
    intro α f
    funext row
    simp [Function.comp, create_projection_eq]
  have h5 : ((ProjectionBody.iter_projection crs).map
      (fun p => (p.projection.get? 0).bind PCell.asInt)) =
        [some 10, some 15, some 20, some 25, some 30, some 35, some 40,
         some 45, some 50, some 55, some 60, some 65, some 70, some 75,
         some 80, some 85, some 90] := by
    unfold ProjectionBody.iter_projection
    rw [List.map_map, hcomp (fun row => (row.get? 0).bind PCell.asInt)]
    decide
  refine ⟨?_, ?_, ?_, ?_, h5, ?_, rfl⟩
  · unfold ProjectionBody.iter_projection
    rw [List.length_map]
    rfl
  · unfold ProjectionBody.iter_projection
    rw [List.length_map]
  · unfold ProjectionBody.iter_projection
    rw [List.map_map]
    have hid : (ProjectionBody.projection ∘ ProjectionBody.create crs) = id := by
      funext row
      simp [Function.comp, create_projection_eq]
    rw [hid, List.map_id]
  · intro p hp
    obtain ⟨row, hrow, rfl⟩ := List.mem_map.mp hp
    exact create_body_crs_eq crs row
  · rw [h5]
    decide

/-- Witness for C9: the Mars-like iteration has 17 entries and its North
Polar entry wraps the iterated CRS. -/
theorem C9_iter_projection_catalog_witness :
    (ProjectionBody.iter_projection marsCrsO).length = 17 ∧
      (ProjectionBody.create marsCrsO northPolarRow).body_crs = marsCrsO := by
  refine ⟨(C9_iter_projection_catalog marsCrsO).1,
    (C9_iter_projection_catalog marsCrsO).2.2.2.1 _ ?_⟩
  exact List.mem_map_of_mem _ (by decide)

end Csvforwkt
